import Mathlib

/-!
Verification of the OCR HTTP adapter (`src/main.py`).

The program is a thin adapter over a third-party OCR engine:

* `_format_results` flattens the engine's nested per-line results into a
  flat list of `{text, score, box}` records, coercing every coordinate and
  every score with Python's `float(...)`.
* `run_ocr_from_bytes` validates the raw bytes (empty check, decode check)
  and invokes the engine under the process-wide lock `_ocr_lock`.
* `run_ocr_from_path` checks existence of a file and delegates to
  `run_ocr_from_bytes` on its contents.
* `ocr_endpoint` (`POST /ocr`) performs the content-type check and maps the
  exceptions raised by `run_ocr_from_bytes` to HTTP status/detail pairs.

The decoder (`cv2.imdecode`) and the engine (`ocr.ocr`) are external
collaborators; they enter the embedding as function parameters.  The engine
is stateful (a single shared handle), so it is modelled as a state-passing
function `σ → Image → Except PyExc RawResult × σ`, and every adapter
function threads that state.  Locking is modelled separately as a small
operational transition system (`GuardStep`) over the phases a request
handler passes through in `run_ocr_from_bytes`.
-/

/-- Raw upload bodies / file contents: `bytes` as a sequence of byte values. -/
abbrev ByteSeq := List Nat

/-- The value domain of Python floats: a finite rational, an infinity, or NaN.
Model of what `float(...)` produces; non-finite values pass through the
adapter unvalidated. -/
inductive PyFloat
  | finite (q : ℚ)
  | inf
  | neginf
  | nan
deriving DecidableEq

/-- A numeric value as the engine may report it (`int` or `float`). -/
inductive PyNum
  | int (n : ℤ)
  | float (f : PyFloat)
deriving DecidableEq

/-- Model of Python's `float(...)` coercion applied to an engine-reported
number: an `int` becomes the (exact) finite float of the same value, a
`float` is returned unchanged. -/
def PyNum.toFloat : PyNum → PyFloat
  | .int n => .finite n
  | .float f => f

/-- A float is finite when it is neither an infinity nor NaN. -/
def PyFloat.isFinite : PyFloat → Bool
  | .finite _ => true
  | _ => false

/-- An engine-reported box: a sequence of two-dimensional points. -/
abbrev Box := List (PyNum × PyNum)

/-- One engine-native entry: `(box, (text, score))`. -/
abbrev OcrEntry := Box × (String × PyNum)

/-- The engine's raw nested output: a sequence of groups (lines), each a
sequence of entries.  This is the `raw` iterated by `_format_results`. -/
abbrev RawResult := List (List OcrEntry)

/-- One normalized record `{"text": ..., "score": ..., "box": ...}` as built
by the loop body of `_format_results`. -/
structure Detection where
  text : String
  score : PyFloat
  box : List (PyFloat × PyFloat)
deriving DecidableEq

/-- The record built for one entry by the body of `_format_results`:
`{"text": text, "score": float(score), "box": [[float(x), float(y)] for x, y in box]}`. -/
def detectionOf (e : OcrEntry) : Detection :=
  { text := e.2.1
    score := e.2.2.toFloat
    box := e.1.map (fun p => (p.1.toFloat, p.2.toFloat)) }

/-- `_format_results` from `src/main.py`: two nested `for` loops appending
one record per `(box, (text, score))` pair to an accumulator that starts
empty. -/
def _format_results (raw : RawResult) : List Detection :=
  raw.foldl
    (fun formatted detections =>
      detections.foldl (fun acc entry => acc ++ [detectionOf entry]) formatted)
    []

/-- The phases a request handler passes through while executing
`run_ocr_from_bytes`: input validation and decoding (outside the lock),
waiting at `with _ocr_lock:`, the engine call `ocr.ocr(img)` (inside the
lock), formatting the result (after releasing), then returning; `failed`
covers every raising exit (empty input, decode failure, engine exception). -/
inductive ReqPhase
  | validating
  | waiting
  | engineCall
  | formatting
  | done
  | failed
deriving DecidableEq

/-- The shared state of `n` concurrent requests: which thread (if any)
currently holds `_ocr_lock`, and each thread's phase. -/
structure GuardState (n : Nat) where
  lockHolder : Option (Fin n)
  phase : Fin n → ReqPhase

/-- Initial state: the lock is free, every request is validating. -/
def initGuard (n : Nat) : GuardState n :=
  ⟨none, fun _ => .validating⟩

/-- Pointwise update of one thread's phase. -/
def setPhase {n : Nat} (s : GuardState n) (i : Fin n) (p : ReqPhase) :
    Fin n → ReqPhase :=
  fun j => if j = i then p else s.phase j

/-- One interleaving step of the request handlers running
`run_ocr_from_bytes`.  Acquiring `_ocr_lock` requires the lock to be free;
leaving the `with` block — normally (`engineOk`) or through an exception
propagating out of `ocr.ocr` (`engineRaise`) — releases it, the
scoped-release discipline of Python's `with`. -/
inductive GuardStep {n : Nat} : GuardState n → GuardState n → Prop
  | validateFail (s : GuardState n) (i : Fin n) :
      s.phase i = .validating →
      GuardStep s ⟨s.lockHolder, setPhase s i .failed⟩
  | validateOk (s : GuardState n) (i : Fin n) :
      s.phase i = .validating →
      GuardStep s ⟨s.lockHolder, setPhase s i .waiting⟩
  | acquire (s : GuardState n) (i : Fin n) :
      s.phase i = .waiting → s.lockHolder = none →
      GuardStep s ⟨some i, setPhase s i .engineCall⟩
  | engineOk (s : GuardState n) (i : Fin n) :
      s.phase i = .engineCall →
      GuardStep s ⟨none, setPhase s i .formatting⟩
  | engineRaise (s : GuardState n) (i : Fin n) :
      s.phase i = .engineCall →
      GuardStep s ⟨none, setPhase s i .failed⟩
  | formatDone (s : GuardState n) (i : Fin n) :
      s.phase i = .formatting →
      GuardStep s ⟨s.lockHolder, setPhase s i .done⟩

/-- States reachable from the initial state by interleaved steps. -/
def GuardReachable {n : Nat} (s : GuardState n) : Prop :=
  Relation.ReflTransGen GuardStep (initGuard n) s

/-- The guard invariant: a thread is inside the engine call exactly when it
is the holder of `_ocr_lock`. -/
def GuardInv {n : Nat} (s : GuardState n) : Prop :=
  ∀ i, s.phase i = .engineCall ↔ s.lockHolder = some i

/-- The exception classes that matter to this adapter: `ValueError` and
`FileNotFoundError` are raised by the adapter itself (and mapped to 400 by
the endpoint); any other exception class is collapsed to `other`, carrying
its `str(exc)` message (mapped to 500). -/
inductive PyExc
  | valueError (msg : String)
  | fileNotFoundError (msg : String)
  | other (msg : String)
deriving DecidableEq

/-- An `HTTPException(status_code=..., detail=...)` as the endpoint raises it. -/
structure HTTPError where
  status : Nat
  detail : String
deriving DecidableEq

/-- `run_ocr_from_bytes` from `src/main.py`.  `decode` stands for
`cv2.imdecode` (returning `none` where the library returns `None`), and
`engine` for the shared `ocr.ocr` handle, modelled as a state-passing
function on an abstract engine-state type `σ`.  The function raises
`ValueError("Empty image data")` on an empty byte string, raises
`ValueError("Failed to decode image")` when the decoder returns no image,
and otherwise invokes the engine and formats its result. -/
def run_ocr_from_bytes {σ Image : Type} (decode : ByteSeq → Option Image)
    (engine : σ → Image → Except PyExc RawResult × σ)
    (image_bytes : ByteSeq) (s : σ) : Except PyExc (List Detection) × σ :=
  if image_bytes.isEmpty then
    (.error (.valueError "Empty image data"), s)
  else
    match decode image_bytes with
    | none => (.error (.valueError "Failed to decode image"), s)
    | some img =>
        match engine s img with
        | (.ok raw, s') => (.ok (_format_results raw), s')
        | (.error e, s') => (.error e, s')

/-- `run_ocr_from_path` from `src/main.py`.  The filesystem is modelled as
`fs : String → Option ByteSeq`, mapping a path to its contents when
`image_path.exists()` holds and to `none` otherwise; on a missing path the
function raises `FileNotFoundError(f"Image not found: \x7bimage_path\x7d")`,
otherwise it reads the bytes and delegates to `run_ocr_from_bytes`. -/
def run_ocr_from_path {σ Image : Type} (fs : String → Option ByteSeq)
    (decode : ByteSeq → Option Image)
    (engine : σ → Image → Except PyExc RawResult × σ)
    (image_path : String) (s : σ) : Except PyExc (List Detection) × σ :=
  match fs image_path with
  | none => (.error (.fileNotFoundError ("Image not found: " ++ image_path)), s)
  | some data => run_ocr_from_bytes decode engine data s

/-- Python's `s.startswith(pre)`: `pre`'s characters are an initial
segment of `s`'s. -/
def pyStartswith (s pre : String) : Bool :=
  pre.data.isPrefixOf s.data

/-- The guard of `ocr_endpoint`:
`file.content_type and not file.content_type.startswith("image/")`.
Python truthiness on an optional string: `None` and `""` are falsy, so the
rejection fires exactly for a present, non-empty content type that does not
start with `"image/"`. -/
def contentTypeRejected : Option String → Bool
  | none => false
  | some s => !(s == "") && !(pyStartswith s "image/")

/-- `ocr_endpoint` (`POST /ocr`) from `src/main.py`: reject non-image
content types, then run `run_ocr_from_bytes` on the uploaded bytes and map
its exceptions: `FileNotFoundError` and `ValueError` to a 400 with the
exception message as detail, any other exception to a 500 with detail
`"OCR failed: <message>"`. -/
def ocr_endpoint {σ Image : Type} (decode : ByteSeq → Option Image)
    (engine : σ → Image → Except PyExc RawResult × σ)
    (content_type : Option String) (data : ByteSeq) (s : σ) :
    Except HTTPError (List Detection) × σ :=
  if contentTypeRejected content_type then
    (.error ⟨400, "Only image uploads are supported."⟩, s)
  else
    match run_ocr_from_bytes decode engine data s with
    | (.ok detections, s') => (.ok detections, s')
    | (.error (.fileNotFoundError msg), s') => (.error ⟨400, msg⟩, s')
    | (.error (.valueError msg), s') => (.error ⟨400, msg⟩, s')
    | (.error (.other msg), s') => (.error ⟨500, "OCR failed: " ++ msg⟩, s')

/-- The inner `for box, (text, score) in detections` loop appends the mapped
entries of one group, in order, after the accumulator. -/
theorem format_inner_foldl (g : List OcrEntry) (acc : List Detection) :
    g.foldl (fun acc entry => acc ++ [detectionOf entry]) acc
      = acc ++ g.map detectionOf := by
  induction g generalizing acc with
  | nil => simp
  | cons e g ih => simp [ih]

/-- The outer loop of `_format_results` appends the flattening of the
remaining groups after the accumulator. -/
theorem format_outer_foldl (raw : RawResult) (acc : List Detection) :
    raw.foldl
        (fun formatted detections =>
          detections.foldl (fun acc entry => acc ++ [detectionOf entry]) formatted)
        acc
      = acc ++ (raw.map (fun g => g.map detectionOf)).flatten := by
  induction raw generalizing acc with
  | nil => simp
  | cons g raw ih =>
      rw [List.foldl_cons, format_inner_foldl, ih, List.map_cons, List.flatten_cons,
        List.append_assoc]

/-- `_format_results` is the in-order flattening of the per-group maps. -/
theorem format_results_eq_join (raw : RawResult) :
    _format_results raw = (raw.map (fun g => g.map detectionOf)).flatten := by
  simpa using format_outer_foldl raw []

/-- C2: `_format_results` returns one flat sequence, equal to the
concatenation, group by group and entry by entry in order, of the coerced
records `detectionOf` (which coerce every box coordinate and the score with
`float(...)` and perform no validation of the score value); its length is
the total number of `(box, (text, score))` pairs; and on an engine report
with no detections it returns the empty list rather than failing. -/
theorem format_results_spec (raw : RawResult) :
    _format_results raw = (raw.map (fun g => g.map detectionOf)).flatten
    ∧ (_format_results raw).length = (raw.map List.length).sum
    ∧ _format_results [] = [] := by
  refine ⟨format_results_eq_join raw, ?_, rfl⟩
  rw [format_results_eq_join raw]
  simp [List.length_flatten, List.map_map, Function.comp_def, List.length_map]

/-- The guard invariant holds initially: nobody is in the engine call and
the lock is free. -/
theorem guardInv_init (n : Nat) : GuardInv (initGuard n) := by
  intro i
  constructor
  · intro h; cases h
  · intro h; cases h

/-- The guard invariant is preserved by every interleaving step. -/
theorem guardInv_step {n : Nat} {s t : GuardState n}
    (hinv : GuardInv s) (hstep : GuardStep s t) : GuardInv t := by
  cases hstep with
  | validateFail i hi =>
      intro j
      by_cases hj : j = i
      · subst hj
        simp only [setPhase, if_pos rfl]
        constructor
        · intro h; cases h
        · intro h
          have hc := (hinv j).mpr h
          rw [hi] at hc; cases hc
      · simpa only [setPhase, if_neg hj] using hinv j
  | validateOk i hi =>
      intro j
      by_cases hj : j = i
      · subst hj
        simp only [setPhase, if_pos rfl]
        constructor
        · intro h; cases h
        · intro h
          have hc := (hinv j).mpr h
          rw [hi] at hc; cases hc
      · simpa only [setPhase, if_neg hj] using hinv j
  | acquire i hi hfree =>
      intro j
      by_cases hj : j = i
      · subst hj
        simp [setPhase]
      · simp only [setPhase, if_neg hj]
        constructor
        · intro h
          have hc := (hinv j).mp h
          rw [hfree] at hc; cases hc
        · intro h
          exact absurd (Option.some.inj h).symm hj
  | engineOk i hi =>
      intro j
      by_cases hj : j = i
      · subst hj
        simp only [setPhase, if_pos rfl]
        constructor
        · intro h; cases h
        · intro h; cases h
      · simp only [setPhase, if_neg hj]
        constructor
        · intro h
          have hc := (hinv j).mp h
          have hc' := (hinv i).mp hi
          rw [hc'] at hc
          exact absurd (Option.some.inj hc).symm hj
        · intro h; cases h
  | engineRaise i hi =>
      intro j
      by_cases hj : j = i
      · subst hj
        simp only [setPhase, if_pos rfl]
        constructor
        · intro h; cases h
        · intro h; cases h
      · simp only [setPhase, if_neg hj]
        constructor
        · intro h
          have hc := (hinv j).mp h
          have hc' := (hinv i).mp hi
          rw [hc'] at hc
          exact absurd (Option.some.inj hc).symm hj
        · intro h; cases h
  | formatDone i hi =>
      intro j
      by_cases hj : j = i
      · subst hj
        simp only [setPhase, if_pos rfl]
        constructor
        · intro h; cases h
        · intro h
          have hc := (hinv j).mpr h
          rw [hi] at hc; cases hc
      · simpa only [setPhase, if_neg hj] using hinv j

/-- Every reachable state satisfies the guard invariant. -/
theorem guardInv_reachable {n : Nat} {s : GuardState n}
    (h : GuardReachable s) : GuardInv s := by
  unfold GuardReachable at h
  induction h with
  | refl => exact guardInv_init n
  | tail hsteps hstep ih => exact guardInv_step ih hstep

/-- In a reachable state with no thread inside the engine call, the lock is
free. -/
theorem lock_free_of_idle {n : Nat} {s : GuardState n}
    (hreach : GuardReachable s)
    (hidle : ∀ i, s.phase i ≠ ReqPhase.engineCall) : s.lockHolder = none := by
  have hinv := guardInv_reachable hreach
  cases hh : s.lockHolder with
  | none => rfl
  | some i => exact absurd ((hinv i).mpr hh) (hidle i)

/-- C1: mutual exclusion on the engine handle.  In every state reachable by
interleaving any number of concurrent requests through
`run_ocr_from_bytes`, at most one thread is inside the engine call: any two
threads in the `engineCall` phase are the same thread, because every
invocation of the engine holds the single process-wide lock `_ocr_lock`. -/
theorem engine_mutual_exclusion {n : Nat} (s : GuardState n)
    (hreach : GuardReachable s) (i j : Fin n)
    (hi : s.phase i = ReqPhase.engineCall)
    (hj : s.phase j = ReqPhase.engineCall) : i = j := by
  have hinv := guardInv_reachable hreach
  have h1 := (hinv i).mp hi
  have h2 := (hinv j).mp hj
  rw [h1] at h2
  exact Option.some.inj h2

/-- Witness for C1: a concrete reachable state of one request that has
validated its input and acquired the lock for the engine call. -/
theorem engine_mutual_exclusion_witness :
    GuardReachable
        (⟨some 0,
          setPhase ⟨none, setPhase (initGuard 1) 0 .waiting⟩ 0 .engineCall⟩ :
          GuardState 1)
    ∧ (0 : Fin 1) = 0 := by
  have step1 : GuardStep (initGuard 1)
      (⟨none, setPhase (initGuard 1) 0 .waiting⟩ : GuardState 1) :=
    GuardStep.validateOk (initGuard 1) 0 rfl
  have step2 : GuardStep
      (⟨none, setPhase (initGuard 1) 0 .waiting⟩ : GuardState 1)
      (⟨some 0,
        setPhase ⟨none, setPhase (initGuard 1) 0 .waiting⟩ 0 .engineCall⟩ :
        GuardState 1) :=
    GuardStep.acquire _ 0 rfl rfl
  have hreach : GuardReachable
      (⟨some 0,
        setPhase ⟨none, setPhase (initGuard 1) 0 .waiting⟩ 0 .engineCall⟩ :
        GuardState 1) :=
    Relation.ReflTransGen.tail
      (Relation.ReflTransGen.tail Relation.ReflTransGen.refl step1) step2
  exact ⟨hreach, engine_mutual_exclusion _ hreach 0 0 rfl rfl⟩

/-- On an empty byte string, `run_ocr_from_bytes` raises
`ValueError("Empty image data")` without consulting decoder or engine. -/
theorem run_ocr_empty {σ Image : Type} (decode : ByteSeq → Option Image)
    (engine : σ → Image → Except PyExc RawResult × σ) (s : σ) :
    run_ocr_from_bytes decode engine [] s
      = (Except.error (PyExc.valueError "Empty image data"), s) := rfl

/-- When the decoder returns no image for a non-empty byte string,
`run_ocr_from_bytes` raises `ValueError("Failed to decode image")` without
consulting the engine. -/
theorem run_ocr_decode_fail {σ Image : Type} (decode : ByteSeq → Option Image)
    (engine : σ → Image → Except PyExc RawResult × σ) (b : ByteSeq) (s : σ)
    (hb : b.isEmpty = false) (hdec : decode b = none) :
    run_ocr_from_bytes decode engine b s
      = (Except.error (PyExc.valueError "Failed to decode image"), s) := by
  simp [run_ocr_from_bytes, hb, hdec]

/-- When the bytes decode, `run_ocr_from_bytes` returns the engine's answer
with `_format_results` applied on success, and the engine's new state. -/
theorem run_ocr_decoded {σ Image : Type} (decode : ByteSeq → Option Image)
    (engine : σ → Image → Except PyExc RawResult × σ) (b : ByteSeq) (s : σ)
    (img : Image) (hb : b.isEmpty = false) (hdec : decode b = some img) :
    run_ocr_from_bytes decode engine b s
      = ((engine s img).1.map _format_results, (engine s img).2) := by
  rcases hh : engine s img with ⟨r, s₂⟩
  cases r with
  | ok raw => simp [run_ocr_from_bytes, hb, hdec, hh, Except.map]
  | error e => simp [run_ocr_from_bytes, hb, hdec, hh, Except.map]

/-- When the content-type check passes, the endpoint is exactly the
exception-to-status mapping applied to `run_ocr_from_bytes`. -/
theorem ocr_endpoint_pass {σ Image : Type} (decode : ByteSeq → Option Image)
    (engine : σ → Image → Except PyExc RawResult × σ)
    (ct : Option String) (data : ByteSeq) (s : σ)
    (hct : contentTypeRejected ct = false) :
    ocr_endpoint decode engine ct data s
      = (match run_ocr_from_bytes decode engine data s with
         | (.ok detections, s') => (.ok detections, s')
         | (.error (.fileNotFoundError msg), s') => (.error ⟨400, msg⟩, s')
         | (.error (.valueError msg), s') => (.error ⟨400, msg⟩, s')
         | (.error (.other msg), s') => (.error ⟨500, "OCR failed: " ++ msg⟩, s')) := by
  simp [ocr_endpoint, hct]

/-- The length of `_format_results` is the total number of entries. -/
theorem format_results_length (raw : RawResult) :
    (_format_results raw).length = (raw.map List.length).sum := by
  rw [format_results_eq_join]
  simp [List.length_flatten, List.map_map, Function.comp_def, List.length_map]

/-- C4: with an empty upload body and a content type that is absent or
starts with `image/`, `POST /ocr` answers 400 with detail exactly
`"Empty image data"` (for any decoder and engine — neither is consulted);
and, provided the external engine does not itself raise
`ValueError("Empty image data")`, `run_ocr_from_bytes` raises that
`ValueError` exactly when its input has zero length. -/
theorem empty_input_spec {σ Image : Type} (decode : ByteSeq → Option Image)
    (engine : σ → Image → Except PyExc RawResult × σ)
    (ct : Option String) (b : ByteSeq) (s : σ)
    (hct : ct = none ∨ ∃ t, ct = some t ∧ pyStartswith t "image/" = true)
    (heng : ∀ s₁ img,
      (engine s₁ img).1 ≠ Except.error (PyExc.valueError "Empty image data")) :
    ocr_endpoint decode engine ct [] s
      = (Except.error ⟨400, "Empty image data"⟩, s)
    ∧ ((run_ocr_from_bytes decode engine b s).1
        = Except.error (PyExc.valueError "Empty image data") ↔ b = []) := by
  have hctr : contentTypeRejected ct = false := by
    rcases hct with h | ⟨t, rfl, ht⟩
    · rw [h]; rfl
    · simp [contentTypeRejected, ht]
  refine ⟨?_, ?_, ?_⟩
  · rw [ocr_endpoint_pass _ _ _ _ _ hctr, run_ocr_empty]
  · intro h
    cases hbe : b with
    | nil => rfl
    | cons x xs =>
        rw [hbe] at h
        cases hdec : decode (x :: xs) with
        | none =>
            rw [run_ocr_decode_fail decode engine (x :: xs) s rfl hdec] at h
            simp only [Except.error.injEq, PyExc.valueError.injEq] at h
            exact absurd h (by decide)
        | some img =>
            rw [run_ocr_decoded decode engine (x :: xs) s img rfl hdec] at h
            have hne := heng s img
            cases hr : (engine s img).1 with
            | ok raw => rw [hr] at h; simp [Except.map] at h
            | error e =>
                rw [hr] at h
                simp only [Except.map, Except.error.injEq] at h
                rw [hr, h] at hne
                exact absurd rfl hne
  · intro h
    rw [h, run_ocr_empty]

/-- Witness for C4 at a concrete decoder, engine, and empty body. -/
theorem empty_input_spec_witness :
    ocr_endpoint (fun (_ : ByteSeq) => (none : Option Unit))
        (fun (s : Unit) (_ : Unit) => (Except.ok ([] : RawResult), s)) none [] ()
      = (Except.error ⟨400, "Empty image data"⟩, ())
    ∧ ((run_ocr_from_bytes (fun (_ : ByteSeq) => (none : Option Unit))
          (fun (s : Unit) (_ : Unit) => (Except.ok ([] : RawResult), s)) [] ()).1
        = Except.error (PyExc.valueError "Empty image data") ↔ ([] : ByteSeq) = []) :=
  empty_input_spec _ _ none [] () (Or.inl rfl)
    (fun _ _ h => Except.noConfusion h)

/-- C5 counterexample: a non-empty body that the decoder rejects, uploaded
with declared content type `text/plain`, is answered with the content-type
detail, not with `"Failed to decode image"`; so the claim as stated fails
without a proviso on the content type. -/
theorem decode_failure_counterexample :
    ((fun (_ : ByteSeq) => (none : Option Unit)) [0] = none)
    ∧ ([0] : ByteSeq) ≠ []
    ∧ ocr_endpoint (fun (_ : ByteSeq) => (none : Option Unit))
        (fun (s : Unit) (_ : Unit) => (Except.ok ([] : RawResult), s))
        (some "text/plain") [0] ()
        = (Except.error ⟨400, "Only image uploads are supported."⟩, ())
    ∧ ("Only image uploads are supported." : String) ≠ "Failed to decode image" := by
  refine ⟨rfl, by decide, rfl, by decide⟩

/-- C5 (amended): for every non-empty upload body on which the decoder
returns no image, and whose content type passes the endpoint's check
(absent, empty, or starting with `image/`), `POST /ocr` fails with 400 and
detail exactly `"Failed to decode image"`, for every engine — the engine is
never invoked and the engine state is returned unchanged; equivalently
`run_ocr_from_bytes` raises `ValueError("Failed to decode image")`. -/
theorem decode_failure_spec {σ Image : Type} (decode : ByteSeq → Option Image)
    (engine : σ → Image → Except PyExc RawResult × σ)
    (ct : Option String) (data : ByteSeq) (s : σ)
    (hct : contentTypeRejected ct = false)
    (hne : data.isEmpty = false)
    (hdec : decode data = none) :
    ocr_endpoint decode engine ct data s
      = (Except.error ⟨400, "Failed to decode image"⟩, s)
    ∧ run_ocr_from_bytes decode engine data s
      = (Except.error (PyExc.valueError "Failed to decode image"), s) := by
  have hrun := run_ocr_decode_fail decode engine data s hne hdec
  refine ⟨?_, hrun⟩
  rw [ocr_endpoint_pass _ _ _ _ _ hct, hrun]

/-- Witness for the amended C5 at a concrete failing decoder. -/
theorem decode_failure_spec_witness :
    ocr_endpoint (fun (_ : ByteSeq) => (none : Option Unit))
        (fun (s : Unit) (_ : Unit) => (Except.ok ([] : RawResult), s)) none [0] ()
      = (Except.error ⟨400, "Failed to decode image"⟩, ())
    ∧ run_ocr_from_bytes (fun (_ : ByteSeq) => (none : Option Unit))
        (fun (s : Unit) (_ : Unit) => (Except.ok ([] : RawResult), s)) [0] ()
      = (Except.error (PyExc.valueError "Failed to decode image"), ()) :=
  decode_failure_spec _ _ none [0] () rfl rfl rfl

/-- C6 counterexample: with a declared content type that is the empty
string — present, and not starting with `image/` — the endpoint does not
answer with the content-type rejection (here, an empty body gets
`"Empty image data"` instead); so the claim as stated fails for the empty
string. -/
theorem content_type_empty_counterexample :
    pyStartswith "" "image/" = false
    ∧ ocr_endpoint (fun (_ : ByteSeq) => (none : Option Unit))
        (fun (s : Unit) (_ : Unit) => (Except.ok ([] : RawResult), s))
        (some "") [] ()
        = (Except.error ⟨400, "Empty image data"⟩, ())
    ∧ ("Empty image data" : String) ≠ "Only image uploads are supported." := by
  refine ⟨by decide, rfl, by decide⟩

/-- C6 (amended): for every upload whose declared content type is present
and non-empty and does not start with `image/`, `POST /ocr` answers 400
with detail exactly `"Only image uploads are supported."`, for every body,
decoder and engine — neither decoding nor the engine is attempted, and the
engine state is returned unchanged. -/
theorem content_type_reject {σ Image : Type} (decode : ByteSeq → Option Image)
    (engine : σ → Image → Except PyExc RawResult × σ)
    (t : String) (data : ByteSeq) (s : σ)
    (hne : t ≠ "") (hni : pyStartswith t "image/" = false) :
    ocr_endpoint decode engine (some t) data s
      = (Except.error ⟨400, "Only image uploads are supported."⟩, s) := by
  have hrej : contentTypeRejected (some t) = true := by
    simp [contentTypeRejected, hne, hni]
  simp [ocr_endpoint, hrej]

/-- Witness for the amended C6 at content type `text/plain`. -/
theorem content_type_reject_witness :
    ocr_endpoint (fun (_ : ByteSeq) => (none : Option Unit))
        (fun (s : Unit) (_ : Unit) => (Except.ok ([] : RawResult), s))
        (some "text/plain") [0] ()
      = (Except.error ⟨400, "Only image uploads are supported."⟩, ()) :=
  content_type_reject _ _ "text/plain" [0] () (by decide) (by decide)

/-- C10: when the upload carries no declared content type, or the declared
content type is the empty string, the content-type rejection does not fire,
and the request is processed exactly as a request with no content type:
it proceeds to the decode-and-validate stage of `run_ocr_from_bytes`. -/
theorem content_type_absent_or_empty {σ Image : Type}
    (decode : ByteSeq → Option Image)
    (engine : σ → Image → Except PyExc RawResult × σ)
    (ct : Option String) (data : ByteSeq) (s : σ)
    (hct : ct = none ∨ ct = some "") :
    contentTypeRejected ct = false
    ∧ ocr_endpoint decode engine ct data s
      = ocr_endpoint decode engine none data s := by
  have hctr : contentTypeRejected ct = false := by
    rcases hct with rfl | rfl
    · rfl
    · rfl
  refine ⟨hctr, ?_⟩
  rw [ocr_endpoint_pass decode engine ct data s hctr,
    ocr_endpoint_pass decode engine none data s rfl]

/-- Witness for C10 at an empty-string content type. -/
theorem content_type_absent_or_empty_witness :
    contentTypeRejected (some "") = false
    ∧ ocr_endpoint (fun (_ : ByteSeq) => (none : Option Unit))
        (fun (s : Unit) (_ : Unit) => (Except.ok ([] : RawResult), s))
        (some "") [0] ()
      = ocr_endpoint (fun (_ : ByteSeq) => (none : Option Unit))
          (fun (s : Unit) (_ : Unit) => (Except.ok ([] : RawResult), s))
          none [0] () :=
  content_type_absent_or_empty _ _ (some "") [0] () (Or.inr rfl)

/-- The response (first component) of the endpoint, when the content-type
check passes, is the status mapping of the response of
`run_ocr_from_bytes`. -/
theorem ocr_endpoint_fst {σ Image : Type} (decode : ByteSeq → Option Image)
    (engine : σ → Image → Except PyExc RawResult × σ)
    (ct : Option String) (data : ByteSeq) (s : σ)
    (hct : contentTypeRejected ct = false) :
    (ocr_endpoint decode engine ct data s).1
      = (match (run_ocr_from_bytes decode engine data s).1 with
         | .ok detections => .ok detections
         | .error (.fileNotFoundError msg) => .error ⟨400, msg⟩
         | .error (.valueError msg) => .error ⟨400, msg⟩
         | .error (.other msg) => .error ⟨500, "OCR failed: " ++ msg⟩) := by
  rw [ocr_endpoint_pass decode engine ct data s hct]
  rcases hr : run_ocr_from_bytes decode engine data s with ⟨r, t⟩
  cases r with
  | ok ds => rfl
  | error e => cases e <;> rfl

/-- When the engine's answer does not depend on its state, neither does the
first component (the result / exception) of `run_ocr_from_bytes`. -/
theorem run_fst_state_independent {σ Image : Type}
    (decode : ByteSeq → Option Image)
    (engine : σ → Image → Except PyExc RawResult × σ) (b : ByteSeq)
    (hdet : ∀ s t img, (engine s img).1 = (engine t img).1) (s t : σ) :
    (run_ocr_from_bytes decode engine b s).1
      = (run_ocr_from_bytes decode engine b t).1 := by
  cases hb : b.isEmpty with
  | true => simp [run_ocr_from_bytes, hb]
  | false =>
      cases hdec : decode b with
      | none =>
          rw [run_ocr_decode_fail decode engine b s hb hdec,
            run_ocr_decode_fail decode engine b t hb hdec]
      | some img =>
          rw [run_ocr_decoded decode engine b s img hb hdec,
            run_ocr_decoded decode engine b t img hb hdec]
          show (engine s img).1.map _format_results
            = (engine t img).1.map _format_results
          rw [hdet s t img]

/-- C8: assuming the engine is a deterministic function of the decoded
image — its answer does not depend on its mutable state — two consecutive
`POST /ocr` calls with the same content type and the same image bytes
(the second running on the engine state left by the first) produce
identical responses, and in particular identical detection lists. -/
theorem ocr_idempotent {σ Image : Type} (decode : ByteSeq → Option Image)
    (engine : σ → Image → Except PyExc RawResult × σ)
    (ct : Option String) (data : ByteSeq) (s₀ : σ)
    (hdet : ∀ s t img, (engine s img).1 = (engine t img).1) :
    (ocr_endpoint decode engine ct data
        ((ocr_endpoint decode engine ct data s₀).2)).1
      = (ocr_endpoint decode engine ct data s₀).1 := by
  cases hc : contentTypeRejected ct with
  | true => simp [ocr_endpoint, hc]
  | false =>
      rw [ocr_endpoint_fst decode engine ct data
          ((ocr_endpoint decode engine ct data s₀).2) hc,
        ocr_endpoint_fst decode engine ct data s₀ hc,
        run_fst_state_independent decode engine data hdet
          ((ocr_endpoint decode engine ct data s₀).2) s₀]

/-- Witness for C8 at a concrete deterministic engine. -/
theorem ocr_idempotent_witness :
    (ocr_endpoint (fun (_ : ByteSeq) => some ())
        (fun (s : Unit) (_ : Unit) => (Except.ok ([] : RawResult), s)) none [1]
        ((ocr_endpoint (fun (_ : ByteSeq) => some ())
            (fun (s : Unit) (_ : Unit) => (Except.ok ([] : RawResult), s))
            none [1] ()).2)).1
      = (ocr_endpoint (fun (_ : ByteSeq) => some ())
          (fun (s : Unit) (_ : Unit) => (Except.ok ([] : RawResult), s))
          none [1] ()).1 :=
  ocr_idempotent _ _ none [1] () (fun _ _ _ => rfl)

/-- C9: `run_ocr_from_path` raises
`FileNotFoundError(f"Image not found: ...")` when the path does not resolve
to an existing file — for any decoder and engine, with the engine state
unchanged, so nothing is read and nothing downstream runs; and on an
existing file it returns exactly `run_ocr_from_bytes` applied to the file's
contents. -/
theorem run_from_path_spec {σ Image : Type} (fs : String → Option ByteSeq)
    (decode : ByteSeq → Option Image)
    (engine : σ → Image → Except PyExc RawResult × σ) (p : String) (s : σ) :
    (fs p = none →
      run_ocr_from_path fs decode engine p s
        = (Except.error (PyExc.fileNotFoundError ("Image not found: " ++ p)), s))
    ∧ (∀ data, fs p = some data →
        run_ocr_from_path fs decode engine p s
          = run_ocr_from_bytes decode engine data s) := by
  constructor
  · intro h
    simp [run_ocr_from_path, h]
  · intro data h
    simp [run_ocr_from_path, h]

/-- Witness for C9 on a one-file filesystem: a missing path raises, an
existing path behaves as the byte-based entry point on the contents. -/
theorem run_from_path_spec_witness :
    run_ocr_from_path
        (fun q => if q = "sample.png" then some ([7] : ByteSeq) else none)
        (fun (_ : ByteSeq) => (none : Option Unit))
        (fun (s : Unit) (_ : Unit) => (Except.ok ([] : RawResult), s))
        "missing.png" ()
      = (Except.error
          (PyExc.fileNotFoundError ("Image not found: " ++ "missing.png")), ())
    ∧ run_ocr_from_path
        (fun q => if q = "sample.png" then some ([7] : ByteSeq) else none)
        (fun (_ : ByteSeq) => (none : Option Unit))
        (fun (s : Unit) (_ : Unit) => (Except.ok ([] : RawResult), s))
        "sample.png" ()
      = run_ocr_from_bytes (fun (_ : ByteSeq) => (none : Option Unit))
          (fun (s : Unit) (_ : Unit) => (Except.ok ([] : RawResult), s))
          [7] () := by
  constructor
  · exact (run_from_path_spec _ _ _ "missing.png" ()).1 (by decide)
  · exact (run_from_path_spec _ _ _ "sample.png" ()).2 [7] (by decide)

/-- C3: when the content-type check passes, the bytes decode, and the
engine reports detections whose boxes all have exactly 4 points with
finite coordinates and whose scores are all finite, the `/ocr` response is
a success carrying exactly one `Detection` per reported `(box, (text,
score))` pair — `(raw.map List.length).sum` of them — and every record has
a 4-point box of finite coordinates and a finite score. -/
theorem ocr_response_shape {σ Image : Type} (decode : ByteSeq → Option Image)
    (engine : σ → Image → Except PyExc RawResult × σ)
    (ct : Option String) (data : ByteSeq) (s : σ) (img : Image)
    (raw : RawResult) (s₂ : σ)
    (hct : contentTypeRejected ct = false)
    (hne : data.isEmpty = false)
    (hdec : decode data = some img)
    (heng : engine s img = (Except.ok raw, s₂))
    (hbox : ∀ g ∈ raw, ∀ e ∈ g, e.1.length = 4
      ∧ ∀ q ∈ e.1, (PyNum.toFloat q.1).isFinite = true
          ∧ (PyNum.toFloat q.2).isFinite = true)
    (hscore : ∀ g ∈ raw, ∀ e ∈ g, (PyNum.toFloat e.2.2).isFinite = true) :
    ocr_endpoint decode engine ct data s
      = (Except.ok (_format_results raw), s₂)
    ∧ (_format_results raw).length = (raw.map List.length).sum
    ∧ ∀ d ∈ _format_results raw,
        d.box.length = 4
        ∧ (∀ q ∈ d.box, q.1.isFinite = true ∧ q.2.isFinite = true)
        ∧ d.score.isFinite = true := by
  refine ⟨?_, format_results_length raw, ?_⟩
  · have hrun : run_ocr_from_bytes decode engine data s
        = (Except.ok (_format_results raw), s₂) := by
      rw [run_ocr_decoded decode engine data s img hne hdec, heng]
      rfl
    rw [ocr_endpoint_pass decode engine ct data s hct, hrun]
  · intro d hd
    rw [format_results_eq_join] at hd
    rcases List.mem_flatten.mp hd with ⟨l, hl, hdl⟩
    rcases List.mem_map.mp hl with ⟨g, hg, rfl⟩
    rcases List.mem_map.mp hdl with ⟨e, he, rfl⟩
    obtain ⟨hlen, hfin⟩ := hbox g hg e he
    refine ⟨?_, ?_, hscore g hg e he⟩
    · simp [detectionOf, hlen]
    · intro q hq
      simp only [detectionOf, List.mem_map] at hq
      rcases hq with ⟨p, hp, rfl⟩
      exact ⟨(hfin p hp).1, (hfin p hp).2⟩

/-- Witness for C3: a single detection with a 4-point box. -/
theorem ocr_response_shape_witness :
    ocr_endpoint (fun (_ : ByteSeq) => some ())
        (fun (s : Unit) (_ : Unit) =>
          (Except.ok
            ([[([(PyNum.int 0, PyNum.int 0), (PyNum.int 1, PyNum.int 0),
                 (PyNum.int 1, PyNum.int 1), (PyNum.int 0, PyNum.int 1)],
                ("hi", PyNum.float (PyFloat.finite (9 / 10))))]] : RawResult),
            s))
        none [1] ()
      = (Except.ok
          (_format_results
            [[([(PyNum.int 0, PyNum.int 0), (PyNum.int 1, PyNum.int 0),
                (PyNum.int 1, PyNum.int 1), (PyNum.int 0, PyNum.int 1)],
               ("hi", PyNum.float (PyFloat.finite (9 / 10))))]]), ()) :=
  (ocr_response_shape _ _ none [1] () ()
    [[([(PyNum.int 0, PyNum.int 0), (PyNum.int 1, PyNum.int 0),
        (PyNum.int 1, PyNum.int 1), (PyNum.int 0, PyNum.int 1)],
       ("hi", PyNum.float (PyFloat.finite (9 / 10))))]] ()
    rfl rfl rfl rfl (by decide) (by decide)).1

/-- C7: when the engine call raises an unexpected failure (an exception
that is not one of the adapter's own `ValueError`/`FileNotFoundError`
classes), `POST /ocr` answers — it does not crash — with status 500 and
detail `"OCR failed: <message>"`; and the lock discipline releases
`_ocr_lock` regardless of success or failure: in every reachable state in
which no thread is inside the engine call (in particular after a failed
request has completed), the lock is free. -/
theorem engine_failure_spec {σ Image : Type} (decode : ByteSeq → Option Image)
    (engine : σ → Image → Except PyExc RawResult × σ)
    (ct : Option String) (data : ByteSeq) (s : σ) (img : Image)
    (msg : String) (s₂ : σ) (n : Nat) (st : GuardState n)
    (hct : contentTypeRejected ct = false)
    (hne : data.isEmpty = false)
    (hdec : decode data = some img)
    (heng : engine s img = (Except.error (PyExc.other msg), s₂))
    (hreach : GuardReachable st)
    (hidle : ∀ i, st.phase i ≠ ReqPhase.engineCall) :
    ocr_endpoint decode engine ct data s
      = (Except.error ⟨500, "OCR failed: " ++ msg⟩, s₂)
    ∧ st.lockHolder = none := by
  refine ⟨?_, lock_free_of_idle hreach hidle⟩
  have hrun : run_ocr_from_bytes decode engine data s
      = (Except.error (PyExc.other msg), s₂) := by
    rw [run_ocr_decoded decode engine data s img hne hdec, heng]
    rfl
  rw [ocr_endpoint_pass decode engine ct data s hct, hrun]

/-- Witness for C7: a concrete failing engine, and the concrete reachable
state in which the one request acquired the lock, the engine raised, and
the `with` block released the lock on the way out. -/
theorem engine_failure_spec_witness :
    ocr_endpoint (fun (_ : ByteSeq) => some ())
        (fun (s : Unit) (_ : Unit) => (Except.error (PyExc.other "boom"), s))
        none [1] ()
      = (Except.error ⟨500, "OCR failed: " ++ "boom"⟩, ())
    ∧ (⟨none,
          setPhase
            ⟨some 0, setPhase ⟨none, setPhase (initGuard 1) 0 .waiting⟩ 0
              .engineCall⟩ 0 .failed⟩ : GuardState 1).lockHolder = none := by
  have step1 : GuardStep (initGuard 1)
      (⟨none, setPhase (initGuard 1) 0 .waiting⟩ : GuardState 1) :=
    GuardStep.validateOk (initGuard 1) 0 rfl
  have step2 : GuardStep
      (⟨none, setPhase (initGuard 1) 0 .waiting⟩ : GuardState 1)
      (⟨some 0,
        setPhase ⟨none, setPhase (initGuard 1) 0 .waiting⟩ 0 .engineCall⟩ :
        GuardState 1) :=
    GuardStep.acquire _ 0 rfl rfl
  have step3 : GuardStep
      (⟨some 0,
        setPhase ⟨none, setPhase (initGuard 1) 0 .waiting⟩ 0 .engineCall⟩ :
        GuardState 1)
      (⟨none,
        setPhase
          ⟨some 0, setPhase ⟨none, setPhase (initGuard 1) 0 .waiting⟩ 0
            .engineCall⟩ 0 .failed⟩ : GuardState 1) :=
    GuardStep.engineRaise _ 0 rfl
  have hreach : GuardReachable
      (⟨none,
        setPhase
          ⟨some 0, setPhase ⟨none, setPhase (initGuard 1) 0 .waiting⟩ 0
            .engineCall⟩ 0 .failed⟩ : GuardState 1) :=
    Relation.ReflTransGen.tail
      (Relation.ReflTransGen.tail
        (Relation.ReflTransGen.tail Relation.ReflTransGen.refl step1) step2)
      step3
  exact engine_failure_spec _ _ none [1] () () "boom" () 1 _
    rfl rfl rfl rfl hreach (by decide)
